import Mathlib

/-!
Shallow embedding of `src/megapose/nvmegapose.py` (class `Megapose`) and
verification of the specification's claims about it.

Python images are modelled as shape-carrying arrays of natural-number pixel
values; floating-point arithmetic on pixel/depth values is modelled over `ℚ`
(the operations involved — division by a constant — are exact in the
specification's reading "up to floating-point precision").  Python exceptions
are modelled with `Except`; an `assert` that fails raises, which short-circuits
the rest of the function body exactly as `Except.bind` does.
-/

namespace NvMegapose

/-! ## Basic data: images, camera data (from `CameraData`, `np.array(Image.open ...)`) -/

/-- A 3x3 intrinsic matrix `K`. -/
def Mat3 : Type := Fin 3 → Fin 3 → ℚ

/-- Record `CameraData`: a resolution `(H, W)` plus the intrinsic matrix, as read from
the camera json file. -/
structure CameraData where
  resolution : Nat × Nat
  K : Mat3

/-- An RGB image as loaded by `np.array(Image.open(...), dtype=np.uint8)`:
height, width, channel count and 8-bit pixel values (`pix row col channel`). -/
structure RgbImage where
  h : Nat
  w : Nat
  c : Nat
  pix : Nat → Nat → Nat → Nat

/-- Expression `rgb.shape[:2]` — the `(H, W)` part of the array shape. -/
def RgbImage.shape2 (img : RgbImage) : Nat × Nat := (img.h, img.w)

/-- A stored depth png (`image_depth.png`): integer depth units per pixel. -/
structure DepthPng where
  h : Nat
  w : Nat
  raw : Nat → Nat → Nat

/-- The depth array produced by
`np.array(Image.open(...), dtype=np.float32) / 10000`. -/
structure DepthArray where
  h : Nat
  w : Nat
  val : Nat → Nat → ℚ

/-- Expression `depth.shape[:2]`. -/
def DepthArray.shape2 (d : DepthArray) : Nat × Nat := (d.h, d.w)

/-- Division of the stored integer depth image by the fixed divisor `10000`
(line `depth = np.array(...) / 10000`). -/
def DepthPng.scaled (d : DepthPng) : DepthArray :=
  ⟨d.h, d.w, fun i j => (d.raw i j : ℚ) / 10000⟩

/-! ## Observation builder: `Megapose.load_observation`, `load_observation_tensor` -/

/-- The contents of an example directory that `load_observation` reads:
the camera json, `image_rgb.png` and `image_depth.png`. -/
structure ExampleDir where
  camera : CameraData
  rgbPng : RgbImage
  depthPng : DepthPng

/-- The error raised when an image's resolution disagrees with the camera
resolution (the failing `assert ... == self.camera_data.resolution`; the spec
names this condition `ResolutionMismatchError`). -/
inductive ObsError where
  | resolutionMismatch
deriving DecidableEq

/-- Method `Megapose.load_observation`: read the camera data, load the rgb image and
assert its resolution, then (if `load_depth`) load and rescale the depth image
and assert its resolution.  A failing assert aborts the call. -/
def load_observation (dir : ExampleDir) (load_depth : Bool) :
    Except ObsError (RgbImage × Option DepthArray × CameraData) :=
  let camera_data := dir.camera
  let rgb := dir.rgbPng
  if rgb.shape2 = camera_data.resolution then
    if load_depth then
      let depth := dir.depthPng.scaled
      if depth.shape2 = camera_data.resolution then
        .ok (rgb, some depth, camera_data)
      else
        .error .resolutionMismatch
    else
      .ok (rgb, none, camera_data)
  else
    .error .resolutionMismatch

/-- Record `ObservationTensor.from_numpy(rgb, depth, K)` — the normalized packaging of
one observation (the estimator-facing record; its device binding is opaque). -/
structure ObservationTensor where
  rgb : RgbImage
  depth : Option DepthArray
  K : Mat3

/-- Method `Megapose.load_observation_tensor`: builds the `ObservationTensor` from the
result of `load_observation`; an exception in `load_observation` propagates and
no tensor is produced. -/
def load_observation_tensor (dir : ExampleDir) (load_depth : Bool) :
    Except ObsError ObservationTensor :=
  match load_observation dir load_depth with
  | .error e => .error e
  | .ok (rgb, depth, camera_data) => .ok ⟨rgb, depth, camera_data.K⟩

/-! ## JSON values and pose persistence: `Megapose.save_predictions`, `load_object_data`

The file content of `object_data.json` is modelled at the level of the JSON
value tree (`json.dumps`/`json.loads` are the Python standard library).
Matrix entries are modelled over `ℚ`, so the round-trip statements are exact —
this is the reading of "up to floating-point serialization precision". -/

/-- A JSON value. -/
inductive Json where
  | null : Json
  | str : String → Json
  | num : ℚ → Json
  | arr : List Json → Json
  | obj : List (String × Json) → Json

/-- A 4x4 transform matrix, row-major (the payload of a `Transform`). -/
abbrev Mat4 : Type := List (List ℚ)

/-- Record `ObjectData`: label, optional modal bounding box, optional 4x4 pose `TWO`. -/
structure ObjectData where
  label : String
  bbox_modal : Option (List ℚ)
  TWO : Option Mat4
deriving DecidableEq

/-- Map a fallible function over a list, failing on the first failure —
the shape of a Python loop that appends to a list and may raise. -/
def mapOpt {α β : Type} (f : α → Option β) : List α → Option (List β)
  | [] => some []
  | a :: l =>
    match f a with
    | none => none
    | some b =>
      match mapOpt f l with
      | none => none
      | some bs => some (b :: bs)

/-- Look a key up in a JSON object's field list. -/
def getField : List (String × Json) → String → Option Json
  | [], _ => none
  | (k, v) :: rest, key => if k = key then some v else getField rest key

/-- Read a JSON number. -/
def Json.asNum : Json → Option ℚ
  | .num q => some q
  | _ => none

/-- Read a JSON array of numbers (a bounding box, or one matrix row). -/
def Json.asNumList : Json → Option (List ℚ)
  | .arr xs => mapOpt Json.asNum xs
  | _ => none

/-- Read a JSON array of arrays of numbers (a 4x4 transform). -/
def Json.asMatrix : Json → Option Mat4
  | .arr rows => mapOpt Json.asNumList rows
  | _ => none

/-- Read a nullable JSON field: `null` denotes an absent value. -/
def parseNullable {α : Type} (p : Json → Option α) : Json → Option (Option α)
  | .null => some none
  | j =>
    match p j with
    | none => none
    | some a => some (some a)

/-- Modelled from the spec: the megapose library's `ObjectData.to_json` is not
under `src/`; the spec's ObjectData JSON schema is
`\x7b "label": string, "bbox_modal": [xmin,ymin,xmax,ymax] | null, "TWO": 4x4-matrix | null \x7d`. -/
def ObjectData.to_json (x : ObjectData) : Json :=
  .obj [("label", .str x.label),
        ("bbox_modal",
          match x.bbox_modal with
          | none => .null
          | some b => .arr (b.map Json.num)),
        ("TWO",
          match x.TWO with
          | none => .null
          | some m => .arr (m.map fun row => Json.arr (row.map Json.num)))]

/-- Modelled from the spec: the megapose library's `ObjectData.from_json` is not
under `src/`; it parses one record of the spec's ObjectData JSON schema back
into a typed record. -/
def ObjectData.from_json (j : Json) : Option ObjectData :=
  match j with
  | .obj fields =>
    match getField fields "label" with
    | some (.str l) =>
      match getField fields "bbox_modal" with
      | some bj =>
        match getField fields "TWO" with
        | some tj =>
          match parseNullable Json.asNumList bj, parseNullable Json.asMatrix tj with
          | some b, some t => some ⟨l, b, t⟩
          | _, _ => none
        | none => none
      | none => none
    | _ => none
  | _ => none

/-- A pose-estimate set as `save_predictions` consumes it: the parallel arrays
`pose_estimates.infos["label"]` and `pose_estimates.poses` (after the
device-to-host transfer, which does not change values). -/
structure PoseEstimates where
  labels : List String
  poses : List Mat4

/-- Method `Megapose.save_predictions`: pair labels with poses (`zip`), wrap each pair
as an `ObjectData` with `TWO` set, and serialize the list as a JSON array —
the value written to `object_data.json`. -/
def save_predictions_json (pe : PoseEstimates) : Json :=
  Json.arr (((pe.labels.zip pe.poses).map
    (fun lp => ObjectData.mk lp.1 none (some lp.2))).map ObjectData.to_json)

/-- Method `Megapose.load_object_data`: parse the JSON array back into `ObjectData`
records (`json.loads` then `ObjectData.from_json` on each element). -/
def load_object_data (j : Json) : Option (List ObjectData) :=
  match j with
  | .arr xs => mapOpt ObjectData.from_json xs
  | _ => none

/-! ## Catalog builder: `Megapose.make_object_dataset`, `make_ycb_object_dataset` -/

/-- One entry of the catalog root's directory listing: the directory name and
the file names `object_dir.glob("*")` yields inside it. -/
structure ObjDir where
  name : String
  files : List String

/-- A catalog entry, `RigidObject(label, mesh_path, mesh_units)`. -/
structure RigidObject where
  label : String
  mesh_path : String
  mesh_units : String
deriving DecidableEq

/-- The error raised by a failing `assert` in `make_object_dataset` (the spec
names this condition `CatalogError`). -/
inductive CatalogError where
  | multipleMeshes (label : String)
  | noMesh (label : String)
deriving DecidableEq

/-- The characters strictly after the last `'.'` of a name, `none` when the
name has no dot. -/
def afterLastDot : List Char → Option (List Char)
  | [] => none
  | c :: rest =>
    match afterLastDot rest with
    | some s => some s
    | none => if c = '.' then some rest else none

/-- Python's `pathlib.Path(fn).suffix`: the part of the name from its last dot on, and
empty when there is no dot, when the dot is the leading character (a dotfile
such as `".obj"`), or when the dot is the final character. -/
def pathSuffix (fn : String) : String :=
  let cs := fn.toList
  match afterLastDot cs with
  | none => ""
  | some s =>
    if cs.length - s.length - 1 = 0 then ""
    else if s = [] then ""
    else String.mk ('.' :: s)

/-- Test `fn.suffix in \x7b".obj", ".ply"\x7d`. -/
def isMeshFile (fn : String) : Bool :=
  pathSuffix fn = ".obj" || pathSuffix fn = ".ply"

/-- The `for fn in object_dir.glob("*")` loop of `make_object_dataset`:
`mesh_path` starts as `None`; each mesh-suffixed file must find it still unset
(`assert not mesh_path`) and then sets it. -/
def findMeshLoop (label : String) (acc : Option String) :
    List String → Except CatalogError (Option String)
  | [] => .ok acc
  | fn :: rest =>
    if isMeshFile fn then
      match acc with
      | some _ => .error (.multipleMeshes label)
      | none => findMeshLoop label (some fn) rest
    else
      findMeshLoop label acc rest

/-- After the loop, `assert mesh_path` — zero candidates is fatal. -/
def findMesh (label : String) (files : List String) : Except CatalogError String :=
  match findMeshLoop label none files with
  | .error e => .error e
  | .ok none => .error (.noMesh label)
  | .ok (some m) => .ok m

/-- Map a fallible function over a list, failing on the first raised error —
the shape of a Python loop that appends to a list and may raise. -/
def mapEx {ε α β : Type} (f : α → Except ε β) : List α → Except ε (List β)
  | [] => .ok []
  | a :: l =>
    match f a with
    | .error e => .error e
    | .ok b =>
      match mapEx f l with
      | .error e => .error e
      | .ok bs => .ok (b :: bs)

/-- Method `Megapose.make_object_dataset` (generic mode): one `RigidObject` per object
directory; the label is the directory name, the mesh is the unique mesh file in
it, and the unit scale is `"m"` (meter). -/
def make_object_dataset (dirs : List ObjDir) : Except CatalogError (List RigidObject) :=
  mapEx (fun d =>
    match findMesh d.name d.files with
    | .error e => .error e
    | .ok m => .ok (RigidObject.mk d.name m "m")) dirs

/-- Insert into a sorted list of path strings, keeping order. -/
def insertSorted (x : String) : List String → List String
  | [] => [x]
  | y :: ys => if x ≤ y then x :: y :: ys else y :: insertSorted x ys

/-- Python's `sorted(...)` on the globbed mesh paths: ascending lexicographic
order of the path strings. -/
def sortPaths (l : List String) : List String := l.foldr insertSorted []

/-- Method `Megapose.make_ycb_object_dataset` (YCB mode): glob all `.ply` paths, sort
them, and give the file at 0-based position `num` the canonical label
`Convert_YCB.convert_number(num + 1)`; the unit scale is `"mm"` (millimeter).
`convert_number` (the position → canonical-name lookup, defined outside this
file's source) is passed in opaquely, as `self.Convert_YCB` is. -/
def make_ycb_object_dataset (convert_number : Nat → String) (plyPaths : List String) :
    List RigidObject :=
  ((sortPaths plyPaths).enum).map fun np => RigidObject.mk (convert_number (np.1 + 1)) np.2 "mm"

/-! ## Render cache loader: `Megapose.load_renders` -/

/-- A `[C, H, W]` image tensor with rational entries (the result of
`transforms.ToTensor()`): `val channel row col`. -/
structure Tensor3 where
  c : Nat
  h : Nat
  w : Nat
  val : Nat → Nat → Nat → ℚ

/-- Transform `transforms.ToTensor()`: converts an `H×W×C` 8-bit image to a `[C, H, W]`
tensor with pixel values scaled into `[0, 1]` by division by 255. -/
def toTensor (img : RgbImage) : Tensor3 :=
  ⟨img.c, img.h, img.w, fun ch i j => (img.pix i j ch : ℚ) / 255⟩

/-- Operation `torch.cat((a, b), dim=0)` on `[C, H, W]` tensors: concatenation along the
channel dimension. -/
def catChannels (a b : Tensor3) : Tensor3 :=
  ⟨a.c + b.c, a.h, a.w,
   fun ch i j => if ch < a.c then a.val ch i j else b.val (ch - a.c) i j⟩

/-- One render-cache subdirectory: its sorted `*.png` listing
(`sorted(list(sub_folder_path.rglob("*.png")))`) and the image stored under
each name. -/
structure SubFolder where
  files : List String
  img : String → RgbImage

/-- The error raised when `Image.open` is given a path that is not in the
directory (`FileNotFoundError`; the spec names the render-cache construction
failure `RenderCacheError`). -/
inductive RenderError where
  | missingFile (path : String)
deriving DecidableEq

/-- Python's `"\x7b:03d\x7d".format(i)`: the index zero-padded to three digits. -/
def pad3 (n : Nat) : String :=
  if n < 10 then "00" ++ toString n
  else if n < 100 then "0" ++ toString n
  else toString n

/-- Name `f"rgb_\x7bpadded_num\x7d.png"`. -/
def rgbName (i : Nat) : String := "rgb_" ++ pad3 i ++ ".png"

/-- Name `f"normal_\x7bpadded_num\x7d.png"`. -/
def normalName (i : Nat) : String := "normal_" ++ pad3 i ++ ".png"

/-- One iteration of the `for i in range(num_files)` loop: open and transform
`rgb_iii.png`, then `normal_iii.png`, and concatenate them along the channel
dimension; a missing file raises. -/
def loadPair (d : SubFolder) (i : Nat) : Except RenderError Tensor3 :=
  if rgbName i ∈ d.files then
    if normalName i ∈ d.files then
      .ok (catChannels (toTensor (d.img (rgbName i))) (toTensor (d.img (normalName i))))
    else .error (.missingFile (normalName i))
  else .error (.missingFile (rgbName i))

/-- The per-subdirectory body of `load_renders`:
`num_files = int(len(png_files) / 2)` pairs are loaded, indexed `0..num_files-1`;
`torch.stack` then makes the list into one tensor whose first dimension is the
list length (kept here as the list itself). -/
def load_folder (d : SubFolder) : Except RenderError (List Tensor3) :=
  mapEx (loadPair d) (List.range (d.files.length / 2))

/-- One entry of `os.listdir(renders_path)`: its name, whether it is a
directory, and (when it is) its contents. -/
structure RootEntry where
  name : String
  isDir : Bool
  sub : SubFolder

/-- Method `Megapose.load_renders`: every directory entry of the root contributes one
`(name, stacked tensor)` item to the resulting dictionary; non-directory
entries fail the `os.path.isdir` test and are skipped silently. -/
def load_renders (entries : List RootEntry) :
    Except RenderError (List (String × List Tensor3)) :=
  mapEx (fun e =>
      match load_folder e.sub with
      | .error err => .error err
      | .ok ts => .ok (e.name, ts))
    (entries.filter fun e => e.isDir)

/-! ## Pose estimation: `Megapose.inference` -/

/-- The exception raised inside `Megapose.inference`: a failing `assert`
(`AssertionError`), or `AttributeError` from evaluating `depth.shape` when
`depth` is `None`. -/
inductive InfError where
  | assertionError
  | noneTypeAttributeError
deriving DecidableEq

/-- One detection record in the estimator's input format. -/
structure DetectionRecord where
  label : String
  bbox : List ℚ
deriving DecidableEq

/-- Modelled from the spec: the megapose library's
`make_detections_from_object_data` is not under `src/`; per the spec's
Detection Adapter contract it converts object annotation records (label +
modal bounding box) into the estimator's detection format, one detection per
record, with no geometric validation. -/
def make_detections_from_object_data (xs : List ObjectData) : List DetectionRecord :=
  xs.map fun x => ⟨x.label, x.bbox_modal.getD []⟩

/-- The detection set `inference` submits: the single-element list
`[ObjectData(label=label, bbox_modal=bbox)]` put through the detection
adapter. -/
def inference_detections (label : String) (bbox : List ℚ) : List DetectionRecord :=
  make_detections_from_object_data [ObjectData.mk label (some bbox) none]

/-- Modelled from the spec: the estimator's `run_inference_pipeline` is not
under `src/`; per the spec's Pose Estimator Facade contract it returns one pose
per detection with the detection's label (output labels are a subset of input
labels, one pose per detection).  The pose values come from the opaque
pretrained estimator, passed in as a function. -/
def run_inference_pipeline (estimator : DetectionRecord → Mat4)
    (detections : List DetectionRecord) : List (String × Mat4) :=
  detections.map fun d => (d.label, estimator d)

/-- Method `Megapose.inference`: assert the rgb shape against the camera resolution,
evaluate `depth.shape` (raising `AttributeError` when `depth is None`) and
assert it, build the observation tensor and the singleton detection list, and
run the inference pipeline. -/
def inference (estimator : DetectionRecord → Mat4) (camera_data : CameraData)
    (rgb : RgbImage) (depth : Option DepthArray) (label : String) (bbox : List ℚ) :
    Except InfError (ObservationTensor × List (String × Mat4)) :=
  if rgb.shape2 = camera_data.resolution then
    match depth with
    | none => .error .noneTypeAttributeError
    | some d =>
      if d.shape2 = camera_data.resolution then
        let observation : ObservationTensor := ⟨rgb, some d, camera_data.K⟩
        let detections := inference_detections label bbox
        .ok (observation, run_inference_pipeline estimator detections)
      else .error .assertionError
  else .error .assertionError

/-! ## Visualization compositor: `Megapose.output_visualization` -/

/-- An exception escaping `output_visualization`: a failure of one of the
loading steps, or a renderer failure (`RenderFailure` in the spec's taxonomy). -/
inductive VisError where
  | obsError (e : ObsError)
  | persistenceError
  | catalogError (e : CatalogError)
  | renderFailure
deriving DecidableEq

/-- One filesystem effect of `output_visualization`, in program order:
`vis_dir.mkdir(exist_ok=True)` or one `export_png(..., filename=...)`. -/
inductive FsWrite where
  | mkdirVisualizations
  | png (name : String)
deriving DecidableEq

/-- Recognizer for `FsWrite.png`. -/
def FsWrite.isPng : FsWrite → Bool
  | .png _ => true
  | _ => false

/-- The inputs `output_visualization` reads: the example directory (camera +
images), the persisted `outputs/object_data.json` content, the catalog listing
`make_object_dataset` is run on, and the opaque renderer's outcome for the
reconstructed scene (`renderer.render_scene(...)`, which either produces the
rendered rgb image or fails). -/
structure VisEnv where
  exampleDir : ExampleDir
  objectDataJson : Json
  catalogDirs : List ObjDir
  renderResult : Except Unit RgbImage

/-- Method `Megapose.output_visualization`: load the observation (without depth), the
persisted object data and the catalog, reconstruct and render the scene, build
the three bokeh figures, create the `visualizations` directory and export
`mesh_overlay.png`, `contour_overlay.png` and `all_results.png`.  The returned
list is the sequence of filesystem writes performed; any earlier exception
aborts the call with no writes. -/
def output_visualization (env : VisEnv) : Except VisError (List FsWrite) :=
  match load_observation env.exampleDir false with
  | .error e => .error (.obsError e)
  | .ok (_rgb, _, _camera_data) =>
    match load_object_data env.objectDataJson with
    | none => .error .persistenceError
    | some _object_datas =>
      match make_object_dataset env.catalogDirs with
      | .error e => .error (.catalogError e)
      | .ok _object_dataset =>
        match env.renderResult with
        | .error _ => .error .renderFailure
        | .ok _renderings_rgb =>
          .ok [FsWrite.mkdirVisualizations,
               FsWrite.png "mesh_overlay.png",
               FsWrite.png "contour_overlay.png",
               FsWrite.png "all_results.png"]

/-! ## Small result-inspection helpers -/

/-- Whether an `Except` computation finished without raising. -/
def isOkE {ε α : Type} : Except ε α → Bool
  | .ok _ => true
  | .error _ => false

/-- Length of the produced list, `0` when the computation raised. -/
def okLength {ε α : Type} : Except ε (List α) → Nat
  | .ok ts => ts.length
  | .error _ => 0

/-- The png files written by a visualization run (none when it raised). -/
def pngWrites : Except VisError (List FsWrite) → List FsWrite
  | .ok ws => ws.filter FsWrite.isPng
  | .error _ => []

/-! ## Concrete inputs used by the witnesses and counterexamples -/

/-- A camera record with resolution 480x640. -/
def camEx : CameraData := ⟨(480, 640), fun _ _ => 1⟩

/-- An rgb image whose resolution does not match `camEx`. -/
def rgbBad : RgbImage := ⟨479, 640, 3, fun _ _ _ => 0⟩

/-- An rgb image matching `camEx`. -/
def rgbEx : RgbImage := ⟨480, 640, 3, fun _ _ _ => 0⟩

/-- A stored depth image matching `camEx`. -/
def depthPngEx : DepthPng := ⟨480, 640, fun _ _ => 12345⟩

/-- An example directory whose rgb image resolution disagrees with the camera. -/
def exDirBad : ExampleDir := ⟨camEx, rgbBad, depthPngEx⟩

/-- An example directory whose images match the camera resolution. -/
def exDirGood : ExampleDir := ⟨camEx, rgbEx, depthPngEx⟩

/-- A one-element pose-estimate set with an identity transform. -/
def peEx : PoseEstimates :=
  ⟨["obj_000002"], [[[1, 0, 0, 0], [0, 1, 0, 0], [0, 0, 1, 0], [0, 0, 0, 1]]]⟩

/-- A constant 4x4-valued test image. -/
def pngEx : RgbImage := ⟨4, 4, 3, fun _ _ _ => 128⟩

/-- A render subdirectory with three png files: `rgb_001.png` has no
`normal_001.png` counterpart, yet only index 0 is referenced. -/
def oddFolder : SubFolder :=
  ⟨["normal_000.png", "rgb_000.png", "rgb_001.png"], fun _ => pngEx⟩

/-- A well-formed render subdirectory with one appearance/normal pair. -/
def evenFolder : SubFolder := ⟨["normal_000.png", "rgb_000.png"], fun _ => pngEx⟩

/-- A render subdirectory with two appearance files and no normal files. -/
def rgbOnlyFolder : SubFolder := ⟨["rgb_000.png", "rgb_001.png"], fun _ => pngEx⟩

/-- A root directory entry holding `evenFolder`. -/
def entryEx : RootEntry := ⟨"obj_000001", true, evenFolder⟩

/-- Two object directories, each with exactly one mesh file. -/
def dirsEx : List ObjDir :=
  [⟨"banana", ["banana.ply", "info.txt"]⟩, ⟨"mug", ["mug.obj"]⟩]

/-- Two mesh paths, listed out of lexicographic order. -/
def plysEx : List String := ["models/obj_000002.ply", "models/obj_000001.ply"]

/-- A canonical-name lookup standing in for `Convert_YCB.convert_number`. -/
def convEx : Nat → String := fun n => "ycb_" ++ toString n

/-- An opaque estimator returning the identity transform. -/
def estEx : DetectionRecord → Mat4 :=
  fun _ => [[1, 0, 0, 0], [0, 1, 0, 0], [0, 0, 1, 0], [0, 0, 0, 1]]

/-- A metric depth array matching `camEx`. -/
def depthEx : DepthArray := ⟨480, 640, fun _ _ => 1⟩

/-- An example bounding box. -/
def bboxEx : List ℚ := [100, 120, 300, 340]

/-- The observation tensor a successful `inference` call on `rgbEx`/`depthEx`
builds. -/
def obsEx : ObservationTensor := ⟨rgbEx, some depthEx, camEx.K⟩

/-- The estimate list a successful `inference` call with label `obj_000001`
returns under `estEx`. -/
def outEx : List (String × Mat4) := [("obj_000001", estEx ⟨"obj_000001", bboxEx⟩)]

/-- The estimate list a successful `inference` call with label `obj_000002`
returns under `estEx`. -/
def outEx2 : List (String × Mat4) := [("obj_000002", estEx ⟨"obj_000002", bboxEx⟩)]

/-- A visualization environment in which every step succeeds. -/
def visEnvOk : VisEnv := ⟨exDirGood, Json.arr [], [], .ok rgbEx⟩

/-- A visualization environment in which the renderer fails. -/
def visEnvFail : VisEnv := ⟨exDirGood, Json.arr [], [], .error ()⟩

/-- The exact write sequence of a successful visualization run. -/
def visWrites : List FsWrite :=
  [FsWrite.mkdirVisualizations, FsWrite.png "mesh_overlay.png",
   FsWrite.png "contour_overlay.png", FsWrite.png "all_results.png"]

/-! # Verification

Generic lemmas about the loop combinators, then one theorem per claim. -/

theorem mapOpt_asNum_num (l : List ℚ) :
    mapOpt Json.asNum (l.map Json.num) = some l := by
  induction l with
  | nil => rfl
  | cons a l ih => simp [mapOpt, Json.asNum, ih]

theorem asMatrix_roundtrip (m : Mat4) :
    Json.asMatrix (Json.arr (m.map fun row => Json.arr (row.map Json.num))) = some m := by
  show mapOpt Json.asNumList (m.map fun row => Json.arr (row.map Json.num)) = some m
  induction m with
  | nil => rfl
  | cons r m ih => simp [mapOpt, Json.asNumList, mapOpt_asNum_num, ih]

theorem from_json_to_json (x : ObjectData) :
    ObjectData.from_json (ObjectData.to_json x) = some x := by
  obtain ⟨l, b, t⟩ := x
  cases b with
  | none =>
    cases t with
    | none => rfl
    | some m =>
      simp [ObjectData.to_json, ObjectData.from_json, getField, parseNullable,
        asMatrix_roundtrip]
  | some bb =>
    cases t with
    | none =>
      simp [ObjectData.to_json, ObjectData.from_json, getField, parseNullable,
        Json.asNumList, mapOpt_asNum_num]
    | some m =>
      simp [ObjectData.to_json, ObjectData.from_json, getField, parseNullable,
        Json.asNumList, mapOpt_asNum_num, asMatrix_roundtrip]

theorem mapOpt_from_json_to_json (xs : List ObjectData) :
    mapOpt ObjectData.from_json (xs.map ObjectData.to_json) = some xs := by
  induction xs with
  | nil => rfl
  | cons x xs ih => simp [mapOpt, from_json_to_json, ih]

/-- C1: for every well-formed pose-estimate set (parallel label/pose arrays),
parsing the JSON value `save_predictions` writes to `object_data.json` with
`load_object_data` reproduces exactly the saved (label, 4x4 transform) pairs;
over `ℚ` the matrix entries are reproduced exactly, which is the
"up to floating-point serialization precision" reading. -/
theorem C1_save_load_roundtrip (pe : PoseEstimates)
    (hwf : pe.labels.length = pe.poses.length) :
    load_object_data (save_predictions_json pe) =
      some ((pe.labels.zip pe.poses).map fun lp => ObjectData.mk lp.1 none (some lp.2)) ∧
    (pe.labels.zip pe.poses).length = pe.labels.length := by
  constructor
  · show mapOpt ObjectData.from_json _ = _
    exact mapOpt_from_json_to_json _
  · simp [List.length_zip, hwf]

/-- C1 witness: a concrete one-element pose-estimate set round-trips. -/
theorem C1_save_load_roundtrip_witness :
    peEx.labels.length = peEx.poses.length ∧
    load_object_data (save_predictions_json peEx) =
      some ((peEx.labels.zip peEx.poses).map fun lp => ObjectData.mk lp.1 none (some lp.2)) ∧
    (peEx.labels.zip peEx.poses).length = peEx.labels.length :=
  ⟨by decide,
   (C1_save_load_roundtrip peEx (by decide)).1,
   (C1_save_load_roundtrip peEx (by decide)).2⟩

/-- C2: whenever the rgb image resolution (or, when depth is requested, the
depth image resolution) differs from the camera resolution, `load_observation`
raises the resolution-mismatch error, and `load_observation_tensor` propagates
it, so no `ObservationTensor` is produced and nothing is cropped or resized. -/
theorem C2_resolution_mismatch_fatal (dir : ExampleDir) (load_depth : Bool)
    (h : dir.rgbPng.shape2 ≠ dir.camera.resolution ∨
         (load_depth = true ∧ dir.depthPng.scaled.shape2 ≠ dir.camera.resolution)) :
    load_observation dir load_depth = .error .resolutionMismatch ∧
    load_observation_tensor dir load_depth = .error .resolutionMismatch := by
  have hobs : load_observation dir load_depth = .error .resolutionMismatch := by
    rcases h with h1 | ⟨hd, h2⟩
    · simp [load_observation, h1]
    · subst hd
      by_cases hr : dir.rgbPng.shape2 = dir.camera.resolution
      · simp [load_observation, hr, h2]
      · simp [load_observation, hr]
  exact ⟨hobs, by simp [load_observation_tensor, hobs]⟩

/-- C2 witness: a 479x640 rgb image against a 480x640 camera fails. -/
theorem C2_resolution_mismatch_fatal_witness :
    (exDirBad.rgbPng.shape2 ≠ exDirBad.camera.resolution ∨
      (false = true ∧ exDirBad.depthPng.scaled.shape2 ≠ exDirBad.camera.resolution)) ∧
    load_observation exDirBad false = .error .resolutionMismatch ∧
    load_observation_tensor exDirBad false = .error .resolutionMismatch :=
  ⟨Or.inl (by decide),
   (C2_resolution_mismatch_fatal exDirBad false (Or.inl (by decide))).1,
   (C2_resolution_mismatch_fatal exDirBad false (Or.inl (by decide))).2⟩

/-- C7: when depth is requested, the stored depth values are divided by the
fixed divisor 10000; when depth is not requested, the returned depth channel
is `none`. -/
theorem C7_depth_scaling (dir : ExampleDir)
    (hr : dir.rgbPng.shape2 = dir.camera.resolution)
    (hd : dir.depthPng.scaled.shape2 = dir.camera.resolution) :
    load_observation dir true = .ok (dir.rgbPng, some dir.depthPng.scaled, dir.camera) ∧
    (∀ i j, dir.depthPng.scaled.val i j = (dir.depthPng.raw i j : ℚ) / 10000) ∧
    load_observation dir false = .ok (dir.rgbPng, none, dir.camera) :=
  ⟨by simp [load_observation, hr, hd], fun _ _ => rfl, by simp [load_observation, hr]⟩

/-- C7 witness: a stored depth value 12345 becomes 12345/10000, and the
depth-less call returns a `none` depth channel. -/
theorem C7_depth_scaling_witness :
    exDirGood.rgbPng.shape2 = exDirGood.camera.resolution ∧
    load_observation exDirGood true =
      .ok (exDirGood.rgbPng, some exDirGood.depthPng.scaled, exDirGood.camera) ∧
    exDirGood.depthPng.scaled.val 0 0 = (12345 : ℚ) / 10000 ∧
    load_observation exDirGood false = .ok (exDirGood.rgbPng, none, exDirGood.camera) :=
  ⟨by decide,
   (C7_depth_scaling exDirGood (by decide) (by decide)).1,
   (C7_depth_scaling exDirGood (by decide) (by decide)).2.1 0 0,
   (C7_depth_scaling exDirGood (by decide) (by decide)).2.2⟩

theorem mapEx_ok_of_all {ε α β : Type} (f : α → Except ε β) (g : α → β) (l : List α)
    (h : ∀ x ∈ l, f x = .ok (g x)) : mapEx f l = .ok (l.map g) := by
  induction l with
  | nil => rfl
  | cons a l ih =>
    have ha := h a (List.mem_cons_self a l)
    have hl := ih fun x hx => h x (List.mem_cons_of_mem a hx)
    simp [mapEx, ha, hl]

theorem isOkE_mapEx_cons {ε α β : Type} (f : α → Except ε β) (a : α) (l : List α) :
    isOkE (mapEx f (a :: l)) = (isOkE (f a) && isOkE (mapEx f l)) := by
  cases hfa : f a with
  | error e => simp [mapEx, hfa, isOkE]
  | ok b =>
    cases hml : mapEx f l with
    | error e => simp [mapEx, hfa, hml, isOkE]
    | ok bs => simp [mapEx, hfa, hml, isOkE]

theorem isOkE_mapEx {ε α β : Type} (f : α → Except ε β) (l : List α) :
    isOkE (mapEx f l) = true ↔ ∀ x ∈ l, isOkE (f x) = true := by
  induction l with
  | nil => simp [mapEx, isOkE]
  | cons a l ih => simp [isOkE_mapEx_cons, ih, List.forall_mem_cons]

theorem isOkE_loadPair (d : SubFolder) (i : Nat) :
    isOkE (loadPair d i) = true ↔ rgbName i ∈ d.files ∧ normalName i ∈ d.files := by
  by_cases h1 : rgbName i ∈ d.files
  · by_cases h2 : normalName i ∈ d.files
    · simp [loadPair, h1, h2, isOkE]
    · simp [loadPair, h1, h2, isOkE]
  · simp [loadPair, h1, isOkE]

theorem loadPair_ok (d : SubFolder) (i : Nat)
    (h1 : rgbName i ∈ d.files) (h2 : normalName i ∈ d.files) :
    loadPair d i =
      .ok (catChannels (toTensor (d.img (rgbName i))) (toTensor (d.img (normalName i)))) := by
  simp [loadPair, h1, h2]

/-- C3 counterexample: the subdirectory listing
`["normal_000.png", "rgb_000.png", "rgb_001.png"]` is not a matched
even-numbered pair set — `rgb_001.png` has no normal counterpart — yet
`load_folder` succeeds and silently truncates to the single pair 0. -/
theorem C3_counterexample_truncation :
    rgbName 1 ∈ oddFolder.files ∧ ¬ normalName 1 ∈ oddFolder.files ∧
    isOkE (load_folder oddFolder) = true ∧ okLength (load_folder oddFolder) = 1 := by
  decide

/-- C3 (amended): `load_renders` loading of one subdirectory fails (with the
missing-file error; the spec calls render-cache construction failure
`RenderCacheError`) exactly when some referenced index `i < count/2` lacks its
appearance or its normal file; files beyond the referenced range — in
particular the unpaired extra of an odd-count listing — are silently ignored
rather than being an error. -/
theorem C3_missing_counterpart_fatal (d : SubFolder) :
    isOkE (load_folder d) = true ↔
      ∀ i ∈ List.range (d.files.length / 2),
        rgbName i ∈ d.files ∧ normalName i ∈ d.files := by
  simp only [load_folder, isOkE_mapEx, isOkE_loadPair]

/-- C3 witness: a matched single pair loads; two appearance files with no
normal counterpart fail. -/
theorem C3_missing_counterpart_fatal_witness :
    isOkE (load_folder evenFolder) = true ∧
    isOkE (load_folder rgbOnlyFolder) = false := by
  constructor
  · exact (C3_missing_counterpart_fatal evenFolder).mpr (by decide)
  · cases hb : isOkE (load_folder rgbOnlyFolder) with
    | false => rfl
    | true => exact absurd ((C3_missing_counterpart_fatal rgbOnlyFolder).mp hb) (by decide)

theorem toTensor_val_mem_unit (img : RgbImage) (hb : ∀ i j ch, img.pix i j ch ≤ 255)
    (ch i j : Nat) : 0 ≤ (toTensor img).val ch i j ∧ (toTensor img).val ch i j ≤ 1 := by
  rw [show (toTensor img).val ch i j = (img.pix i j ch : ℚ) / 255 from rfl]
  constructor
  · positivity
  · rw [div_le_one (by norm_num)]
    exact_mod_cast hb i j ch

theorem catChannels_val_mem_unit (a b : Tensor3)
    (ha : ∀ ch i j, 0 ≤ a.val ch i j ∧ a.val ch i j ≤ 1)
    (hb : ∀ ch i j, 0 ≤ b.val ch i j ∧ b.val ch i j ≤ 1)
    (ch i j : Nat) :
    0 ≤ (catChannels a b).val ch i j ∧ (catChannels a b).val ch i j ≤ 1 := by
  simp only [catChannels]
  by_cases hch : ch < a.c
  · simpa [hch] using ha ch i j
  · simpa [hch] using hb (ch - a.c) i j

/-- C4: a subdirectory holding `2k` png files forming matched appearance/normal
pairs with `c` channels per image yields a stacked tensor of `k = pairCount/2`
pair tensors, each with `2c` channels, each pair being the two `[0,1]`-scaled
images concatenated along the channel axis; and non-directory root entries are
skipped silently. -/
theorem C4_render_tensor_shape (e : RootEntry) (k c : Nat)
    (hdir : e.isDir = true)
    (hcount : e.sub.files.length = 2 * k)
    (hfiles : ∀ i ∈ List.range k, rgbName i ∈ e.sub.files ∧ normalName i ∈ e.sub.files)
    (hchan : ∀ fn, (e.sub.img fn).c = c)
    (hpix : ∀ fn i j ch, (e.sub.img fn).pix i j ch ≤ 255) :
    ∃ ts, load_folder e.sub = .ok ts ∧
      load_renders [e] = .ok [(e.name, ts)] ∧
      ts.length = e.sub.files.length / 2 ∧
      (∀ t ∈ ts, t.c = 2 * c) ∧
      (∀ t ∈ ts, ∀ ch i j, 0 ≤ t.val ch i j ∧ t.val ch i j ≤ 1) ∧
      ts = (List.range k).map (fun i =>
        catChannels (toTensor (e.sub.img (rgbName i))) (toTensor (e.sub.img (normalName i)))) ∧
      (∀ e2 rest, e2.isDir = false → load_renders (e2 :: rest) = load_renders rest) := by
  have hk : e.sub.files.length / 2 = k := by omega
  have hload : load_folder e.sub = .ok ((List.range k).map fun i =>
      catChannels (toTensor (e.sub.img (rgbName i))) (toTensor (e.sub.img (normalName i)))) := by
    unfold load_folder
    rw [hk]
    exact mapEx_ok_of_all _ _ _ fun i hi =>
      loadPair_ok _ _ (hfiles i hi).1 (hfiles i hi).2
  refine ⟨_, hload, ?_, ?_, ?_, ?_, rfl, ?_⟩
  · simp [load_renders, List.filter, hdir, mapEx, hload]
  · simp [hk]
  · intro t ht
    simp only [List.mem_map, List.mem_range] at ht
    obtain ⟨i, _, rfl⟩ := ht
    simp only [catChannels, toTensor, hchan]
    omega
  · intro t ht ch i j
    simp only [List.mem_map, List.mem_range] at ht
    obtain ⟨a, _, rfl⟩ := ht
    exact catChannels_val_mem_unit _ _
      (toTensor_val_mem_unit _ fun i' j' ch' => hpix _ i' j' ch')
      (toTensor_val_mem_unit _ fun i' j' ch' => hpix _ i' j' ch') ch i j
  · intro e2 rest h2
    simp [load_renders, List.filter, h2]

/-- C4 witness: one matched pair of 3-channel 4x4 images yields one 6-channel
pair tensor. -/
theorem C4_render_tensor_shape_witness :
    entryEx.sub.files.length = 2 * 1 ∧
    ∃ ts, load_folder entryEx.sub = .ok ts ∧
      load_renders [entryEx] = .ok [(entryEx.name, ts)] ∧
      ts.length = entryEx.sub.files.length / 2 ∧
      (∀ t ∈ ts, t.c = 2 * 3) ∧
      (∀ t ∈ ts, ∀ ch i j, 0 ≤ t.val ch i j ∧ t.val ch i j ≤ 1) ∧
      ts = (List.range 1).map (fun i =>
        catChannels (toTensor (entryEx.sub.img (rgbName i)))
          (toTensor (entryEx.sub.img (normalName i)))) ∧
      (∀ e2 rest, e2.isDir = false → load_renders (e2 :: rest) = load_renders rest) :=
  ⟨by decide,
   C4_render_tensor_shape entryEx 1 3 rfl (by decide) (by decide)
     (fun _ => rfl) (fun _ _ _ _ => by exact (by decide : (128 : Nat) ≤ 255))⟩

theorem length_insertSorted (x : String) (l : List String) :
    (insertSorted x l).length = l.length + 1 := by
  induction l with
  | nil => rfl
  | cons y ys ih =>
    by_cases h : x ≤ y
    · simp [insertSorted, h]
    · simp [insertSorted, h, ih]

theorem length_sortPaths (l : List String) : (sortPaths l).length = l.length := by
  induction l with
  | nil => rfl
  | cons a l ih =>
    show (insertSorted a (sortPaths l)).length = l.length + 1
    rw [length_insertSorted, ih]

theorem mapEx_ok_getElem {ε α β : Type} (f : α → Except ε β) (l : List α) :
    ∀ (bs : List β), mapEx f l = .ok bs →
      ∀ (i : Nat) (a : α) (b : β), l[i]? = some a → bs[i]? = some b → f a = .ok b := by
  induction l with
  | nil => intro bs _ i a b ha _; simp at ha
  | cons x l ih =>
    intro bs h i a b ha hb
    cases hfx : f x with
    | error e => simp [mapEx, hfx] at h
    | ok y =>
      cases hml : mapEx f l with
      | error e => simp [mapEx, hfx, hml] at h
      | ok ys =>
        simp only [mapEx, hfx, hml, Except.ok.injEq] at h
        subst h
        cases i with
        | zero =>
          simp only [List.getElem?_cons_zero, Option.some.injEq] at ha hb
          subst ha; subst hb
          exact hfx
        | succ i =>
          simp only [List.getElem?_cons_succ] at ha hb
          exact ih ys hml i a b ha hb

theorem mapEx_error_of_bad {ε α β : Type} (f : α → Except ε β) (l : List α)
    (h : ∃ x ∈ l, ∀ b, f x ≠ .ok b) : ∃ e, mapEx f l = .error e := by
  induction l with
  | nil => obtain ⟨x, hx, _⟩ := h; simp at hx
  | cons a l ih =>
    obtain ⟨x, hx, hbad⟩ := h
    cases hfa : f a with
    | error e => exact ⟨e, by simp [mapEx, hfa]⟩
    | ok b =>
      rcases List.mem_cons.mp hx with rfl | hx2
      · exact absurd hfa (hbad b)
      · obtain ⟨e, he⟩ := ih ⟨x, hx2, hbad⟩
        exact ⟨e, by simp [mapEx, hfa, he]⟩

theorem findMeshLoop_some (label m : String) (files : List String) :
    findMeshLoop label (some m) files =
      if files.filter isMeshFile = [] then .ok (some m)
      else .error (.multipleMeshes label) := by
  induction files with
  | nil => rfl
  | cons fn rest ih =>
    by_cases h : isMeshFile fn
    · simp [findMeshLoop, h, List.filter_cons]
    · simp [findMeshLoop, h, List.filter_cons, ih]

theorem findMeshLoop_none (label : String) (files : List String) :
    findMeshLoop label none files =
      match files.filter isMeshFile with
      | [] => .ok none
      | [m] => .ok (some m)
      | _ :: _ :: _ => .error (.multipleMeshes label) := by
  induction files with
  | nil => rfl
  | cons fn rest ih =>
    by_cases h : isMeshFile fn
    · rw [show findMeshLoop label none (fn :: rest) = findMeshLoop label (some fn) rest from
        by simp [findMeshLoop, h]]
      rw [findMeshLoop_some]
      rcases hrf : rest.filter isMeshFile with _ | ⟨m2, rest2⟩
      · simp [List.filter_cons, h, hrf]
      · simp [List.filter_cons, h, hrf]
    · rw [show findMeshLoop label none (fn :: rest) = findMeshLoop label none rest from
        by simp [findMeshLoop, h]]
      rw [ih]
      simp [List.filter_cons, h]

theorem findMesh_eq (label : String) (files : List String) :
    findMesh label files =
      match files.filter isMeshFile with
      | [] => .error (.noMesh label)
      | [m] => .ok m
      | _ :: _ :: _ => .error (.multipleMeshes label) := by
  unfold findMesh
  rw [findMeshLoop_none]
  rcases hf : files.filter isMeshFile with _ | ⟨m, _ | ⟨m2, r⟩⟩ <;> simp

/-- C5: in YCB mode the mesh paths are sorted before indexing and the file at
1-indexed sorted position `n+1` is labelled with the `(n+1)`-th canonical name
from the lookup, every entry having unit scale `"mm"` (millimeter); in generic
mode the label is the directory name and the unit scale is `"m"` (meter). -/
theorem C5_label_assignment_and_units (convert_number : Nat → String)
    (plyPaths : List String) (n : Nat) (hn : n < plyPaths.length) :
    (∃ p, (sortPaths plyPaths)[n]? = some p ∧
      (make_ycb_object_dataset convert_number plyPaths)[n]? =
        some (RigidObject.mk (convert_number (n + 1)) p "mm")) ∧
    (∀ o ∈ make_ycb_object_dataset convert_number plyPaths, o.mesh_units = "mm") ∧
    (∀ (dirs : List ObjDir) (objs : List RigidObject), make_object_dataset dirs = .ok objs →
      ∀ (i : Nat) (d : ObjDir) (o : RigidObject), dirs[i]? = some d → objs[i]? = some o →
        o.label = d.name ∧ o.mesh_units = "m") := by
  refine ⟨?_, ?_, ?_⟩
  · have hn' : n < (sortPaths plyPaths).length := by rw [length_sortPaths]; exact hn
    refine ⟨(sortPaths plyPaths).get ⟨n, hn'⟩, by simp [List.getElem?_eq_getElem hn'], ?_⟩
    unfold make_ycb_object_dataset
    rw [List.getElem?_map, List.getElem?_enum, List.getElem?_eq_getElem hn']
    rfl
  · intro o ho
    simp only [make_ycb_object_dataset, List.mem_map] at ho
    obtain ⟨np, _, rfl⟩ := ho
    rfl
  · intro dirs objs hok i d o hd ho
    have hf := mapEx_ok_getElem _ dirs objs hok i d o hd ho
    cases hfm : findMesh d.name d.files with
    | error e => simp [hfm] at hf
    | ok m =>
      simp only [hfm, Except.ok.injEq] at hf
      subst hf
      exact ⟨rfl, rfl⟩

/-- C5 witness: of two ply paths listed out of order, sorted position 1 gets
canonical name 1, and a concrete generic-mode entry keeps its directory name
and meter units. -/
theorem C5_label_assignment_and_units_witness :
    0 < plysEx.length ∧
    (∃ p, (sortPaths plysEx)[0]? = some p ∧
      (make_ycb_object_dataset convEx plysEx)[0]? =
        some (RigidObject.mk (convEx 1) p "mm")) ∧
    (∀ o ∈ make_ycb_object_dataset convEx plysEx, o.mesh_units = "mm") ∧
    (make_object_dataset dirsEx = .ok [RigidObject.mk "banana" "banana.ply" "m",
        RigidObject.mk "mug" "mug.obj" "m"] →
      ∀ o ∈ [RigidObject.mk "banana" "banana.ply" "m", RigidObject.mk "mug" "mug.obj" "m"],
        o.mesh_units = "m") :=
  ⟨by decide,
   (C5_label_assignment_and_units convEx plysEx 0 (by decide)).1,
   (C5_label_assignment_and_units convEx plysEx 0 (by decide)).2.1,
   by intro _ o ho; fin_cases ho <;> rfl⟩

/-- C6: in generic mode a directory with exactly one mesh-suffixed file per
entry yields one dataset entry per directory — `N` unique labels, each of which
is the directory name and each of whose mesh paths is a file listed in that
directory — while any directory with zero or with two or more mesh candidates
makes `make_object_dataset` raise a catalog error. -/
theorem C6_exactly_one_mesh (dirs : List ObjDir)
    (hone : ∀ d ∈ dirs, (d.files.filter isMeshFile).length = 1)
    (hnames : (dirs.map ObjDir.name).Nodup) :
    (∃ objs, make_object_dataset dirs = .ok objs ∧
      objs.length = dirs.length ∧
      objs.map RigidObject.label = dirs.map ObjDir.name ∧
      (objs.map RigidObject.label).Nodup ∧
      ∀ o ∈ objs, ∃ d ∈ dirs, o.label = d.name ∧ o.mesh_path ∈ d.files) ∧
    (∀ dirs2 : List ObjDir,
      (∃ d ∈ dirs2, d.files.filter isMeshFile = [] ∨
        2 ≤ (d.files.filter isMeshFile).length) →
      ∃ e, make_object_dataset dirs2 = .error e) := by
  constructor
  · have hfm : ∀ d ∈ dirs,
        findMesh d.name d.files = .ok ((d.files.filter isMeshFile).headD "") := by
      intro d hd
      obtain ⟨m, hm⟩ := List.length_eq_one.mp (hone d hd)
      rw [findMesh_eq, hm]
      rfl
    have hok : make_object_dataset dirs = .ok (dirs.map fun d =>
        RigidObject.mk d.name ((d.files.filter isMeshFile).headD "") "m") := by
      unfold make_object_dataset
      apply mapEx_ok_of_all
      intro d hd
      rw [hfm d hd]
    refine ⟨_, hok, by simp, by simp [List.map_map], ?_, ?_⟩
    · show (List.map RigidObject.label (dirs.map fun d =>
        RigidObject.mk d.name ((d.files.filter isMeshFile).headD "") "m")).Nodup
      rw [show List.map RigidObject.label (dirs.map fun d =>
        RigidObject.mk d.name ((d.files.filter isMeshFile).headD "") "m") =
        dirs.map ObjDir.name from by simp [List.map_map]]
      exact hnames
    · intro o ho
      simp only [List.mem_map] at ho
      obtain ⟨d, hd, rfl⟩ := ho
      refine ⟨d, hd, rfl, ?_⟩
      obtain ⟨m, hm⟩ := List.length_eq_one.mp (hone d hd)
      rw [hm]
      have : m ∈ d.files.filter isMeshFile := by rw [hm]; exact List.mem_singleton.mpr rfl
      exact (List.mem_filter.mp this).1
  · intro dirs2 hbad
    obtain ⟨d, hd, hcase⟩ := hbad
    apply mapEx_error_of_bad
    refine ⟨d, hd, ?_⟩
    intro b hb
    cases hfm : findMesh d.name d.files with
    | error e => simp [hfm] at hb
    | ok m =>
      rw [findMesh_eq] at hfm
      rcases hcase with hzero | htwo
      · rw [hzero] at hfm
        simp at hfm
      · rcases hf : d.files.filter isMeshFile with _ | ⟨a1, _ | ⟨a2, r⟩⟩ <;> rw [hf] at hfm
        · rw [hf] at htwo; simp at htwo
        · rw [hf] at htwo; simp at htwo
        · simp at hfm

/-- C6 witness: two well-formed object directories yield two unique labels,
each resolving to a listed mesh file. -/
theorem C6_exactly_one_mesh_witness :
    (∀ d ∈ dirsEx, (d.files.filter isMeshFile).length = 1) ∧
    (dirsEx.map ObjDir.name).Nodup ∧
    ((∃ objs, make_object_dataset dirsEx = .ok objs ∧
      objs.length = dirsEx.length ∧
      objs.map RigidObject.label = dirsEx.map ObjDir.name ∧
      (objs.map RigidObject.label).Nodup ∧
      ∀ o ∈ objs, ∃ d ∈ dirsEx, o.label = d.name ∧ o.mesh_path ∈ d.files) ∧
    (∀ dirs2 : List ObjDir,
      (∃ d ∈ dirs2, d.files.filter isMeshFile = [] ∨
        2 ≤ (d.files.filter isMeshFile).length) →
      ∃ e, make_object_dataset dirs2 = .error e)) :=
  ⟨by decide, by decide, C6_exactly_one_mesh dirsEx (by decide) (by decide)⟩

/-- C8 counterexample: on a successful run with one persisted pose file and a
matching catalog the compositor writes exactly three png files —
`mesh_overlay.png`, `contour_overlay.png` and the combined grid
`all_results.png` — not three artifact pngs plus a grid png (four): the raw
input image figure is composed but never exported on its own. -/
theorem C8_counterexample_three_files :
    output_visualization visEnvOk = .ok visWrites ∧
    (pngWrites (output_visualization visEnvOk)).length = 3 :=
  ⟨rfl, rfl⟩

/-- C8 (amended): every successful `output_visualization` run creates the
`visualizations` directory if absent and then writes exactly three png files —
the mesh overlay, the contour overlay and the side-by-side combined grid — and
when the renderer fails nothing at all is written (no partial output). -/
theorem C8_three_pngs_or_nothing (env : VisEnv) :
    (∀ ws, output_visualization env = .ok ws →
      ws = visWrites ∧ (ws.filter FsWrite.isPng).length = 3) ∧
    (isOkE env.renderResult = false → ∀ ws, output_visualization env ≠ .ok ws) := by
  constructor
  · intro ws h
    unfold output_visualization at h
    split at h
    · simp at h
    · split at h
      · simp at h
      · split at h
        · simp at h
        · split at h
          · simp at h
          · simp only [Except.ok.injEq] at h
            subst h
            exact ⟨rfl, rfl⟩
  · intro hfail ws h
    unfold output_visualization at h
    split at h
    · simp at h
    · split at h
      · simp at h
      · split at h
        · simp at h
        · split at h
          · simp at h
          · simp_all [isOkE]

/-- C8 witness: a successful run writes the three pngs; a run whose renderer
fails writes nothing. -/
theorem C8_three_pngs_or_nothing_witness :
    output_visualization visEnvOk = .ok visWrites ∧
    (visWrites.filter FsWrite.isPng).length = 3 ∧
    isOkE visEnvFail.renderResult = false ∧
    output_visualization visEnvFail ≠ .ok visWrites :=
  ⟨rfl,
   ((C8_three_pngs_or_nothing visEnvOk).1 visWrites rfl).2,
   rfl,
   (C8_three_pngs_or_nothing visEnvFail).2 rfl visWrites⟩

/-- C9 counterexample: `inference` always submits exactly one detection, built
from its single `(label, bbox)` argument pair, so a zero-detection call never
occurs through it; a concrete successful call returns exactly one pose
estimate, not an empty set. -/
theorem C9_counterexample_singleton_detections :
    (inference_detections "obj_000001" bboxEx).length = 1 ∧
    inference estEx camEx rgbEx (some depthEx) "obj_000001" bboxEx = .ok (obsEx, outEx) ∧
    outEx.length = 1 :=
  ⟨rfl, rfl, rfl⟩

/-- C9 (amended): `Megapose.inference` wraps its single label/bbox argument
pair into a one-element detection list, so it can never be given zero
detections; the inference pipeline (modelled from the spec: one pose per
detection, and no renderer involvement) maps the empty detection list to the
empty estimate list, and every successful `inference` call returns exactly one
pose estimate. -/
theorem C9_no_zero_detection_path (estimator : DetectionRecord → Mat4)
    (label : String) (bbox : List ℚ) :
    (inference_detections label bbox).length = 1 ∧
    run_inference_pipeline estimator [] = [] ∧
    (∀ (camera_data : CameraData) (rgb : RgbImage) (depth : Option DepthArray)
       (obs : ObservationTensor) (out : List (String × Mat4)),
      inference estimator camera_data rgb depth label bbox = .ok (obs, out) →
      out.length = 1) := by
  refine ⟨rfl, rfl, ?_⟩
  intro camera_data rgb depth obs out h
  unfold inference at h
  split at h
  · split at h
    · simp at h
    · split at h
      · simp only [Except.ok.injEq, Prod.mk.injEq] at h
        obtain ⟨_, h2⟩ := h
        subst h2
        rfl
      · simp at h
  · simp at h

/-- C9 witness: a concrete successful call yields exactly one estimate. -/
theorem C9_no_zero_detection_path_witness :
    inference estEx camEx rgbEx (some depthEx) "obj_000001" bboxEx = .ok (obsEx, outEx) ∧
    outEx.length = 1 :=
  ⟨rfl,
   (C9_no_zero_detection_path estEx "obj_000001" bboxEx).2.2 camEx rgbEx (some depthEx)
     obsEx outEx rfl⟩

/-- C10: every `inference` call with `depth = None` raises before the
observation tensor is constructed — when the rgb assert on line 62 passes, the
failure is precisely the `AttributeError` from evaluating `depth.shape` on
line 63 — and therefore every call that returns successfully had a non-`None`
depth whose resolution equals the camera resolution. -/
theorem C10_depth_none_unreachable (estimator : DetectionRecord → Mat4)
    (camera_data : CameraData) (rgb : RgbImage) (label : String) (bbox : List ℚ) :
    (∃ e, inference estimator camera_data rgb none label bbox = .error e) ∧
    (rgb.shape2 = camera_data.resolution →
      inference estimator camera_data rgb none label bbox = .error .noneTypeAttributeError) ∧
    (∀ (depth : Option DepthArray) (obs : ObservationTensor) (out : List (String × Mat4)),
      inference estimator camera_data rgb depth label bbox = .ok (obs, out) →
      ∃ d, depth = some d ∧ d.shape2 = camera_data.resolution ∧
        rgb.shape2 = camera_data.resolution) := by
  refine ⟨?_, ?_, ?_⟩
  · by_cases hr : rgb.shape2 = camera_data.resolution
    · exact ⟨.noneTypeAttributeError, by simp [inference, hr]⟩
    · exact ⟨.assertionError, by simp [inference, hr]⟩
  · intro hr
    simp [inference, hr]
  · intro depth obs out h
    unfold inference at h
    split at h
    · split at h
      · simp at h
      · split at h
        · exact ⟨_, rfl, by assumption, by assumption⟩
        · simp at h
    · simp at h

/-- C10 witness: with a matching rgb image and `depth = None` the concrete
call fails with the none-attribute error, and a concrete successful call
exhibits its non-`None`, camera-resolution depth. -/
theorem C10_depth_none_unreachable_witness :
    rgbEx.shape2 = camEx.resolution ∧
    inference estEx camEx rgbEx none "obj_000002" bboxEx = .error .noneTypeAttributeError ∧
    (∃ d, (some depthEx : Option DepthArray) = some d ∧ d.shape2 = camEx.resolution ∧
      rgbEx.shape2 = camEx.resolution) :=
  ⟨by decide,
   (C10_depth_none_unreachable estEx camEx rgbEx "obj_000002" bboxEx).2.1 (by decide),
   (C10_depth_none_unreachable estEx camEx rgbEx "obj_000002" bboxEx).2.2 (some depthEx)
     obsEx outEx2 rfl⟩

end NvMegapose
